import Mathlib

/-
  Shallow embedding of the ic-captcha generation pipeline (src/lib.rs and
  src/captcha.rs).

  Conventions of the embedding:
  * Machine integers are modelled as Nat / Int.  u32 wrap-around and the
    u32 -> i32 bit cast are made explicit (u32_wrapping_sub, i32_of_u32);
    i32 division (which truncates toward zero in Rust) is Int.tdiv.
  * The SHA3-256 hash (sha3 crate), the image buffer type together with
    the imageproc drawing primitives (draw_text_mut,
    draw_cubic_bezier_curve_mut, draw_hollow_ellipse_mut,
    gaussian_noise_mut, salt_and_pepper_noise_mut), the rusttype font and
    the JPEG/base64 encoder are external collaborators of the crate; they
    are modelled as a bundle of abstract deterministic functions (Collab),
    over an abstract image type Img and font type Font.  Coordinates that
    the source casts to f32/f64 immediately before handing them to a
    collaborator are passed as exact Int/Rat values; the lossy float cast
    is absorbed into the abstract collaborator.
  * Fallible operations return Except GenError: `modZero` is the Rust
    panic `u32 % 0` inside Rnd::rnd_32, `divZero` the panic
    `i32 / 0` in the slot-width computation of draw_characters.
-/

namespace ICCaptcha

/-- Errors of the embedding: the two arithmetic panics reachable in the
source (remainder by zero in Rnd::rnd_32, division by zero in the
character layout). -/
inductive GenError
  | modZero
  | divZero
deriving DecidableEq

/-- An RGB pixel color, Rgb<u8> in the source. -/
structure Rgb where
  r : Nat
  g : Nat
  b : Nat
deriving DecidableEq

/-- rusttype::Scale; the two f32 fields are exact small decimals, kept as
rationals. -/
structure Scale where
  x : Rat
  y : Rat
deriving DecidableEq

/-- BASIC_CHAR: the 54-symbol confusable-free alphabet (captcha.rs). -/
def BASIC_CHAR : List Char :=
  ['2', '3', '4', '5', '6', '7', '8', '9', 'A', 'B', 'C', 'D', 'E', 'F', 'G', 'H', 'J', 'K', 'M',
   'N', 'P', 'Q', 'R', 'S', 'T', 'U', 'V', 'W', 'X', 'Y', 'Z', 'a', 'b', 'c', 'd', 'e', 'f', 'g',
   'h', 'j', 'k', 'm', 'n', 'p', 'q', 'r', 's', 't', 'u', 'v', 'w', 'x', 'y', 'z']

/-- LIGHT_BASIC_COLOR (captcha.rs). -/
def LIGHT_BASIC_COLOR : List Rgb :=
  [Rgb.mk 0 140 8, Rgb.mk 5 50 250, Rgb.mk 18 18 18, Rgb.mk 180 120 60, Rgb.mk 224 44 24]

/-- DARK_BASIC_COLOR (captcha.rs). -/
def DARK_BASIC_COLOR : List Rgb :=
  [Rgb.mk 248 248 248, Rgb.mk 255 255 0, Rgb.mk 255 0 255, Rgb.mk 0 255 255, Rgb.mk 0 255 0]

/-- LIGHT background color (captcha.rs). -/
def LIGHT : Rgb := Rgb.mk 248 248 248

/-- DARK background color (captcha.rs). -/
def DARK : Rgb := Rgb.mk 18 18 18

/-- SCALE_SM (captcha.rs). -/
def SCALE_SM : Scale := Scale.mk 38 35

/-- SCALE_MD (captcha.rs). -/
def SCALE_MD : Scale := Scale.mk 45 42

/-- SCALE_LG (captcha.rs). -/
def SCALE_LG : Scale := Scale.mk 53 50

/-- u32::MAX. -/
def U32MAX : Nat := 4294967295

/-- Wrapping u32 subtraction (release-mode semantics of `a - b` on u32). -/
def u32_wrapping_sub (a b : Nat) : Nat :=
  (a % 4294967296 + (4294967296 - b % 4294967296)) % 4294967296

/-- The `as i32` bit cast of a u32 value. -/
def i32_of_u32 (n : Nat) : Int :=
  if n % 4294967296 < 2147483648 then ((n % 4294967296 : Nat) : Int)
  else ((n % 4294967296 : Nat) : Int) - 4294967296

/-- Rust i32 division truncates toward zero. -/
def i32_div (a b : Int) : Int := Int.tdiv a b

/-- next_seed (lib.rs): one application of the external SHA3-256
collaborator H to the seed bytes. -/
def next_seed (H : List Nat → List Nat) (seed : List Nat) : List Nat := H seed

/-- The Rnd state of lib.rs: a 32-byte seed buffer and a byte cursor. -/
structure Rnd where
  offset : Nat
  seed : List Nat
deriving DecidableEq

/-- Rnd::new (lib.rs): state = Hash(seed bytes), cursor 0. -/
def Rnd.new (H : List Nat → List Nat) (seed : List Nat) : Rnd :=
  Rnd.mk 0 (next_seed H seed)

/-- Reading 4 bytes at offset `off` as a little-endian u32
(u32::from_le_bytes over seed[off..off+4]). -/
def readLe4 (s : List Nat) (off : Nat) : Nat :=
  s.getD off 0 + 256 * s.getD (off + 1) 0 + 65536 * s.getD (off + 2) 0 +
    16777216 * s.getD (off + 3) 0

/-- Rnd::rnd_32 (lib.rs): read 4 bytes at the cursor, advance the cursor
by 4, rehash the buffer and reset the cursor when it reaches 32, return
the raw value mod num.  `num = 0` is the Rust panic `u32 % 0`. -/
def Rnd.rnd_32 (H : List Nat → List Nat) (r : Rnd) (num : Nat) :
    Except GenError (Nat × Rnd) :=
  let d := readLe4 r.seed r.offset
  let r' := if 32 ≤ r.offset + 4 then Rnd.mk 0 (next_seed H r.seed)
            else Rnd.mk (r.offset + 4) r.seed
  if num = 0 then Except.error GenError.modZero else Except.ok (d % num, r')

/-- The bundle of external collaborators consumed by the crate: the
SHA3-256 hash, the image buffer constructor/accessors (image crate), the
imageproc drawing primitives, rusttype text metrics and the JPEG+base64
encoder.  All are deterministic functions. -/
structure Collab (Font Img : Type) where
  hash : List Nat → List Nat
  fromFn : Nat → Nat → (Nat → Nat → Rgb) → Img
  imWidth : Img → Nat
  imHeight : Img → Nat
  textSize : Scale → Font → String → Int × Int
  drawText : Img → Rgb → Int → Int → Scale → Font → String → Img
  drawBezier : Img → Int × Int → Int × Int → Int × Int → Int × Int → Rgb → Img
  drawEllipse : Img → Int × Int → Int → Int → Rgb → Img
  gaussianNoise : Img → Rat → Rat → Nat → Img
  saltPepperNoise : Img → Rat → Nat → Img
  encode : Img → Nat → String

/-- The Captcha struct (captcha.rs): color mode tag, character list and
image buffer. -/
structure Captcha (Img : Type) where
  mode : Nat
  chars : List Char
  image : Img

/-- Captcha::text (captcha.rs): collect the chars back into a string. -/
def Captcha.text {Img : Type} (c : Captcha Img) : String := String.mk c.chars

/-- Captcha::to_base64 (captcha.rs): clamp the quality
(>80 becomes 80, <10 becomes 30), encode, and prefix the data URI. -/
def Captcha.to_base64 {Font Img : Type} (C : Collab Font Img) (cap : Captcha Img)
    (compression : Nat) : String :=
  let comp := if compression > 80 then 80
              else if compression < 10 then 30 else compression
  String.append ("data:image/jpeg;base64,") (C.encode cap.image comp)

/-- Captcha::new (captcha.rs): store the text's chars verbatim and fill a
width x height buffer with DARK when mode > 1, LIGHT otherwise. -/
def Captcha.new {Font Img : Type} (C : Collab Font Img) (text : String)
    (width height mode : Nat) : Captcha Img :=
  Captcha.mk mode text.toList
    (C.fromFn width height (fun _ _ => if mode > 1 then DARK else LIGHT))

/-- The character-sampling loop of Captcha::random: draw `num` indices
into BASIC_CHAR, preserving draw order. -/
def sampleChars (H : List Nat → List Nat) : Nat → Rnd → Except GenError (List Char × Rnd)
  | 0, g => Except.ok ([], g)
  | n + 1, g =>
    match Rnd.rnd_32 H g BASIC_CHAR.length with
    | Except.error e => Except.error e
    | Except.ok (v, g1) =>
      match sampleChars H n g1 with
      | Except.error e => Except.error e
      | Except.ok (cs, g2) => Except.ok (BASIC_CHAR.getD v ('2') :: cs, g2)

/-- Captcha::random (captcha.rs): sample the text, then build the captcha
via Captcha::new. -/
def Captcha.random {Font Img : Type} (C : Collab Font Img) (g : Rnd)
    (num width height mode : Nat) : Except GenError (Captcha Img × Rnd) :=
  match sampleChars C.hash num g with
  | Except.error e => Except.error e
  | Except.ok (cs, g') => Except.ok (Captcha.new C (String.mk cs) width height mode, g')

/-- get_color (captcha.rs): mode 0 is the fixed DARK foreground with no
stream draw; mode 1 draws an index into LIGHT_BASIC_COLOR; every other
mode draws an index into DARK_BASIC_COLOR.  The drawn index is < 5, so
the getD default is never used. -/
def get_color (H : List Nat → List Nat) (g : Rnd) (mode : Nat) :
    Except GenError (Rgb × Rnd) :=
  if mode = 0 then Except.ok (DARK, g)
  else if mode = 1 then
    match Rnd.rnd_32 H g LIGHT_BASIC_COLOR.length with
    | Except.error e => Except.error e
    | Except.ok (v, g') => Except.ok (LIGHT_BASIC_COLOR.getD v DARK, g')
  else
    match Rnd.rnd_32 H g DARK_BASIC_COLOR.length with
    | Except.error e => Except.error e
    | Except.ok (v, g') => Except.ok (DARK_BASIC_COLOR.getD v DARK, g')

/-- rnd_between (captcha.rs): returns lo when lo >= hi and never touches
the stream; otherwise draws raw % (hi - lo) and adds it to lo. -/
def rnd_between (H : List Nat → List Nat) (g : Rnd) (lo hi : Int) :
    Except GenError (Int × Rnd) :=
  if hi ≤ lo then Except.ok (lo, g)
  else
    match Rnd.rnd_32 H g (hi - lo).toNat with
    | Except.error e => Except.error e
    | Except.ok (v, g') => Except.ok (lo + (v : Int), g')

/-- The per-character loop of Captcha::draw_characters: for each char,
take its glyph height from text_size, draw a color, draw the jittered
vertical origin via rnd_between, and hand the glyph to the external
draw_text_mut at x = 5 + i * slotWidth. -/
def drawCharsLoop {Font Img : Type} (C : Collab Font Img) (font : Font) (scale : Scale)
    (x h : Int) (mode : Nat) :
    List Char → Nat → Rnd → Img → Except GenError (Img × Rnd)
  | [], _, g, img => Except.ok (img, g)
  | cs :: rest, i, g, img =>
    let c : String := String.mk [cs]
    let ch : Int := (C.textSize scale font c).2
    match get_color C.hash g mode with
    | Except.error e => Except.error e
    | Except.ok (color, g1) =>
      match rnd_between C.hash g1 (0 - i32_div ch 8) (h + i32_div ch 8 - ch) with
      | Except.error e => Except.error e
      | Except.ok (y, g2) =>
        drawCharsLoop C font scale x h mode rest (i + 1) g2
          (C.drawText img color (5 + (i : Int) * x) y scale font c)

/-- Captcha::draw_characters (captcha.rs).  The slot width is
(width - 10) as i32 / chars.len() as i32: division by zero when the
character list is empty.  The glyph scale is the three-bucket policy on
the character count. -/
def Captcha.draw_characters {Font Img : Type} (C : Collab Font Img) (cap : Captcha Img)
    (g : Rnd) (font : Font) : Except GenError (Captcha Img × Rnd) :=
  if cap.chars.length = 0 then Except.error GenError.divZero
  else
    let x : Int := i32_div (i32_of_u32 (u32_wrapping_sub (C.imWidth cap.image) 10))
      (cap.chars.length : Int)
    let h : Int := i32_of_u32 (C.imHeight cap.image)
    let scale := if 1 ≤ cap.chars.length ∧ cap.chars.length ≤ 4 then SCALE_LG
                 else if 5 ≤ cap.chars.length ∧ cap.chars.length ≤ 6 then SCALE_MD
                 else SCALE_SM
    match drawCharsLoop C font scale x h cap.mode cap.chars 0 g cap.image with
    | Except.error e => Except.error e
    | Except.ok (img', g') => Except.ok (Captcha.mk cap.mode cap.chars img', g')

/-- Captcha::draw_interference_line (captcha.rs): sample the endpoints'
y coordinates, the two control points and a color, then draw one cubic
Bezier curve and a second one whose four y coordinates are shifted by
+2.0 (the x coordinates are reused unchanged). -/
def Captcha.draw_interference_line {Font Img : Type} (C : Collab Font Img)
    (cap : Captcha Img) (g : Rnd) : Except GenError (Captcha Img × Rnd) :=
  let width := C.imWidth cap.image
  let height := C.imHeight cap.image
  let x1 : Int := 5
  match rnd_between C.hash g (-5) (i32_of_u32 height) with
  | Except.error e => Except.error e
  | Except.ok (y1, g1) =>
    let x2 : Int := i32_of_u32 width - 5
    match rnd_between C.hash g1 (-5) (i32_of_u32 height + 5) with
    | Except.error e => Except.error e
    | Except.ok (y2, g2) =>
      let span : Int := i32_div (i32_of_u32 width) 10
      match rnd_between C.hash g2 span (i32_div (i32_of_u32 width) 2) with
      | Except.error e => Except.error e
      | Except.ok (ctrl_x, g3) =>
        match rnd_between C.hash g3 0 (i32_of_u32 height) with
        | Except.error e => Except.error e
        | Except.ok (ctrl_y, g4) =>
          match rnd_between C.hash g4 (i32_div (i32_of_u32 width) 2 + span)
              (i32_of_u32 width - span) with
          | Except.error e => Except.error e
          | Except.ok (ctrl_x2, g5) =>
            match rnd_between C.hash g5 0 (i32_of_u32 height) with
            | Except.error e => Except.error e
            | Except.ok (ctrl_y2, g6) =>
              match get_color C.hash g6 cap.mode with
              | Except.error e => Except.error e
              | Except.ok (color, g7) =>
                let img1 := C.drawBezier cap.image (x1, y1) (x2, y2)
                  (ctrl_x, ctrl_y) (ctrl_x2, ctrl_y2) color
                let img2 := C.drawBezier img1 (x1, y1 + 2) (x2, y2 + 2)
                  (ctrl_x, ctrl_y + 2) (ctrl_x2, ctrl_y2 + 2) color
                Except.ok (Captcha.mk cap.mode cap.chars img2, g7)

/-- Captcha::draw_interference_ellipse (captcha.rs): sample a radius, a
center and a color, draw a hollow ellipse with horizontal radius w*2 and
vertical radius w, then a second one with both radii enlarged by 2. -/
def Captcha.draw_interference_ellipse {Font Img : Type} (C : Collab Font Img)
    (cap : Captcha Img) (g : Rnd) : Except GenError (Captcha Img × Rnd) :=
  let width := C.imWidth cap.image
  let height := C.imHeight cap.image
  match rnd_between C.hash g 5 (i32_div (i32_of_u32 height) 3) with
  | Except.error e => Except.error e
  | Except.ok (w, g1) =>
    match rnd_between C.hash g1 5 (i32_of_u32 width - 5) with
    | Except.error e => Except.error e
    | Except.ok (x, g2) =>
      match rnd_between C.hash g2 5 (i32_of_u32 height - 5) with
      | Except.error e => Except.error e
      | Except.ok (y, g3) =>
        match get_color C.hash g3 cap.mode with
        | Except.error e => Except.error e
        | Except.ok (color, g4) =>
          let img1 := C.drawEllipse cap.image (x, y) (w * 2) w color
          let img2 := C.drawEllipse img1 (x, y) (w * 2 + 2) (w + 2) color
          Except.ok (Captcha.mk cap.mode cap.chars img2, g4)

/-- Captcha::draw_interference_noise (captcha.rs): when complexity > 1,
apply Gaussian noise with mean complexity-1 and stddev 4*complexity
seeded by a u32 draw, then salt-and-pepper noise with density
0.002*complexity - 0.002 seeded by a second u32 draw; otherwise do
nothing. -/
def Captcha.draw_interference_noise {Font Img : Type} (C : Collab Font Img)
    (cap : Captcha Img) (g : Rnd) (complexity : Nat) :
    Except GenError (Captcha Img × Rnd) :=
  if complexity > 1 then
    match Rnd.rnd_32 C.hash g U32MAX with
    | Except.error e => Except.error e
    | Except.ok (s1, g1) =>
      let img1 := C.gaussianNoise cap.image ((complexity - 1 : Nat) : Rat)
        ((4 * complexity : Nat) : Rat) s1
      match Rnd.rnd_32 C.hash g1 U32MAX with
      | Except.error e => Except.error e
      | Except.ok (s2, g2) =>
        Except.ok (Captcha.mk cap.mode cap.chars
          (C.saltPepperNoise img1 (0.002 * (complexity : Rat) - 0.002) s2), g2)
  else Except.ok (cap, g)

/-- The CaptchaBuilder struct (lib.rs). -/
structure CaptchaBuilder (Font : Type) where
  fonts : Font
  length : Nat
  width : Nat
  height : Nat
  mode : Nat
  complexity : Nat

/-- CaptchaBuilder::new (lib.rs): the default configuration. -/
def CaptchaBuilder.new {Font : Type} (font : Font) : CaptchaBuilder Font :=
  CaptchaBuilder.mk font 4 140 40 1 4

/-- The `length` setter of CaptchaBuilder: zero falls back to 4. -/
def CaptchaBuilder.set_length {Font : Type} (b : CaptchaBuilder Font) (length : Nat) :
    CaptchaBuilder Font :=
  CaptchaBuilder.mk b.fonts (if length > 0 then length else 4) b.width b.height b.mode
    b.complexity

/-- The `fonts` setter of CaptchaBuilder. -/
def CaptchaBuilder.set_fonts {Font : Type} (b : CaptchaBuilder Font) (fonts : Font) :
    CaptchaBuilder Font :=
  CaptchaBuilder.mk fonts b.length b.width b.height b.mode b.complexity

/-- The `width` setter of CaptchaBuilder: values ≤ 60 fall back to 140. -/
def CaptchaBuilder.set_width {Font : Type} (b : CaptchaBuilder Font) (width : Nat) :
    CaptchaBuilder Font :=
  CaptchaBuilder.mk b.fonts b.length (if width > 60 then width else 140) b.height b.mode
    b.complexity

/-- The `height` setter of CaptchaBuilder: values ≤ 20 fall back to 40. -/
def CaptchaBuilder.set_height {Font : Type} (b : CaptchaBuilder Font) (height : Nat) :
    CaptchaBuilder Font :=
  CaptchaBuilder.mk b.fonts b.length b.width (if height > 20 then height else 40) b.mode
    b.complexity

/-- The `mode` setter of CaptchaBuilder: the tag is stored verbatim,
with no validation or normalization. -/
def CaptchaBuilder.set_mode {Font : Type} (b : CaptchaBuilder Font) (mode : Nat) :
    CaptchaBuilder Font :=
  CaptchaBuilder.mk b.fonts b.length b.width b.height mode b.complexity

/-- The `complexity` setter of CaptchaBuilder: clamped into [1, 10]. -/
def CaptchaBuilder.set_complexity {Font : Type} (b : CaptchaBuilder Font)
    (complexity : Nat) : CaptchaBuilder Font :=
  CaptchaBuilder.mk b.fonts b.length b.width b.height b.mode
    (if complexity > 10 then 10 else if complexity < 1 then 1 else complexity)

/-- The drawing tail of CaptchaBuilder::generate: write the characters,
draw two interference lines, three interference ellipses, then the noise
pass, in that fixed order, threading the single Rnd stream. -/
def renderAll {Font Img : Type} (C : Collab Font Img) (font : Font) (complexity : Nat)
    (cap : Captcha Img) (g : Rnd) : Except GenError (Captcha Img) :=
  match Captcha.draw_characters C cap g font with
  | Except.error e => Except.error e
  | Except.ok (cap1, g1) =>
    match Captcha.draw_interference_line C cap1 g1 with
    | Except.error e => Except.error e
    | Except.ok (cap2, g2) =>
      match Captcha.draw_interference_line C cap2 g2 with
      | Except.error e => Except.error e
      | Except.ok (cap3, g3) =>
        match Captcha.draw_interference_ellipse C cap3 g3 with
        | Except.error e => Except.error e
        | Except.ok (cap4, g4) =>
          match Captcha.draw_interference_ellipse C cap4 g4 with
          | Except.error e => Except.error e
          | Except.ok (cap5, g5) =>
            match Captcha.draw_interference_ellipse C cap5 g5 with
            | Except.error e => Except.error e
            | Except.ok (cap6, g6) =>
              match Captcha.draw_interference_noise C cap6 g6 complexity with
              | Except.error e => Except.error e
              | Except.ok (cap7, _) => Except.ok cap7

/-- CaptchaBuilder::generate (lib.rs): build one fresh Rnd from the seed,
resolve the text (verbatim when given, sampled otherwise), then run the
drawing pipeline. -/
def CaptchaBuilder.generate {Font Img : Type} (C : Collab Font Img)
    (b : CaptchaBuilder Font) (seed : List Nat) (text : Option String) :
    Except GenError (Captcha Img) :=
  match text with
  | some t =>
    renderAll C b.fonts b.complexity (Captcha.new C t b.width b.height b.mode)
      (Rnd.new C.hash seed)
  | none =>
    match Captcha.random C (Rnd.new C.hash seed) b.length b.width b.height b.mode with
    | Except.error e => Except.error e
    | Except.ok (cap, g1) => renderAll C b.fonts b.complexity cap g1

/-- Replace a captcha's mode tag, keeping chars and image (analysis
helper). -/
def reMode {Img : Type} (m : Nat) (c : Captcha Img) : Captcha Img :=
  Captcha.mk m c.chars c.image

/-- Run a sequence of rnd_32 draws with the given bounds, keeping only
the final stream state (analysis helper for the exhaustion property). -/
def drawStates (H : List Nat → List Nat) : List Nat → Rnd → Except GenError Rnd
  | [], g => Except.ok g
  | n :: ns, g =>
    match Rnd.rnd_32 H g n with
    | Except.error e => Except.error e
    | Except.ok (_, g') => drawStates H ns g'

/-- One recorded call to an external drawing collaborator, with the exact
arguments the pipeline passed. -/
inductive DrawOp
  | opText : Rgb → Int → Int → Scale → String → DrawOp
  | opBezier : Int × Int → Int × Int → Int × Int → Int × Int → Rgb → DrawOp
  | opEllipse : Int × Int → Int → Int → Rgb → DrawOp
  | opGaussian : Rat → Rat → Nat → DrawOp
  | opSaltPepper : Rat → Nat → DrawOp
deriving DecidableEq

/-- A collaborator bundle whose image is the chronological list of
drawing calls made against it: each primitive appends a record of its
arguments.  The canvas dimensions and the text metrics are parameters. -/
def traceCollab (H : List Nat → List Nat) (ts : Scale → Unit → String → Int × Int)
    (wd ht : Nat) : Collab Unit (List DrawOp) :=
  Collab.mk H (fun _ _ _ => []) (fun _ => wd) (fun _ => ht) ts
    (fun img col x y sc _ s => img ++ [DrawOp.opText col x y sc s])
    (fun img p1 p2 p3 p4 col => img ++ [DrawOp.opBezier p1 p2 p3 p4 col])
    (fun img c rx ry col => img ++ [DrawOp.opEllipse c rx ry col])
    (fun img mean sd sdseed => img ++ [DrawOp.opGaussian mean sd sdseed])
    (fun img d sdseed => img ++ [DrawOp.opSaltPepper d sdseed])
    (fun _ _ => (""))

/-- A trivial collaborator over Unit image and Unit font, with the
constant all-zero hash; used to evaluate the pipeline on concrete
inputs. -/
def unitCollab : Collab Unit Unit :=
  Collab.mk (fun _ => List.replicate 32 0) (fun _ _ _ => ()) (fun _ => 140) (fun _ => 40)
    (fun _ _ _ => (0, 16)) (fun _ _ _ _ _ _ _ => ()) (fun _ _ _ _ _ _ => ())
    (fun _ _ _ _ _ => ()) (fun _ _ _ _ => ()) (fun _ _ _ => ()) (fun _ _ => (""))

/-- The constant all-zero hash collaborator (every draw reads raw 0). -/
def H0 : List Nat → List Nat := fun _ => List.replicate 32 0

/-- Constant text metrics: every glyph reports width 0 and height 16. -/
def ts0 : Scale → Unit → String → Int × Int := fun _ _ _ => (0, 16)

/-- A concrete stream state: cursor 0 over an all-zero buffer. -/
def g0 : Rnd := Rnd.mk 0 (List.replicate 32 0)

/-! ### Shared lemmas: totality and shape of the stream and the stages -/

lemma rnd_32_eq (H : List Nat → List Nat) (g : Rnd) (n : Nat) (h : n ≠ 0) :
    Rnd.rnd_32 H g n = Except.ok (readLe4 g.seed g.offset % n,
      if 32 ≤ g.offset + 4 then Rnd.mk 0 (next_seed H g.seed)
      else Rnd.mk (g.offset + 4) g.seed) := by
  simp [Rnd.rnd_32, h]

lemma rnd_between_ok (H : List Nat → List Nat) (g : Rnd) (lo hi : Int) :
    ∃ v g', rnd_between H g lo hi = Except.ok (v, g') ∧ lo ≤ v ∧ (lo < hi → v < hi) := by
  unfold rnd_between
  by_cases hle : hi ≤ lo
  · exact ⟨lo, g, by simp [hle], le_refl lo, fun hlt => absurd hlt (not_lt.mpr hle)⟩
  · have hlt : lo < hi := lt_of_not_le hle
    have hn : (hi - lo).toNat ≠ 0 := by omega
    rw [if_neg hle, rnd_32_eq H g _ hn]
    refine ⟨lo + ((readLe4 g.seed g.offset % (hi - lo).toNat : Nat) : Int), _, rfl, by omega, ?_⟩
    intro _
    have hmod : readLe4 g.seed g.offset % (hi - lo).toNat < (hi - lo).toNat :=
      Nat.mod_lt _ (Nat.pos_of_ne_zero hn)
    omega

lemma rnd_32_isOk (H : List Nat → List Nat) (g : Rnd) (n : Nat) (h : n ≠ 0) :
    ∃ v g', Rnd.rnd_32 H g n = Except.ok (v, g') := by
  rw [rnd_32_eq H g n h]
  exact ⟨_, _, rfl⟩

lemma get_color_ok (H : List Nat → List Nat) (g : Rnd) (mode : Nat) :
    ∃ c g', get_color H g mode = Except.ok (c, g') := by
  unfold get_color
  by_cases h0 : mode = 0
  · exact ⟨DARK, g, by simp [h0]⟩
  · by_cases h1 : mode = 1
    · obtain ⟨v, g', hv⟩ := rnd_32_isOk H g LIGHT_BASIC_COLOR.length (by decide)
      rw [if_neg h0, if_pos h1, hv]
      exact ⟨_, _, rfl⟩
    · obtain ⟨v, g', hv⟩ := rnd_32_isOk H g DARK_BASIC_COLOR.length (by decide)
      rw [if_neg h0, if_neg h1, hv]
      exact ⟨_, _, rfl⟩

lemma sampleChars_ok (H : List Nat → List Nat) (n : Nat) (g : Rnd) :
    ∃ cs g', sampleChars H n g = Except.ok (cs, g') ∧ cs.length = n := by
  induction n generalizing g with
  | zero => exact ⟨[], g, rfl, rfl⟩
  | succ n ih =>
    obtain ⟨v, g1, hv⟩ := rnd_32_isOk H g BASIC_CHAR.length (by decide)
    obtain ⟨cs, g', heq, hlen⟩ := ih g1
    refine ⟨BASIC_CHAR.getD v ('2') :: cs, g', ?_, by simp [hlen]⟩
    simp only [sampleChars, hv, heq]

lemma drawCharsLoop_ok {Font Img : Type} (C : Collab Font Img) (font : Font)
    (scale : Scale) (x h : Int) (mode : Nat) (cs : List Char) (i : Nat) (g : Rnd)
    (img : Img) :
    ∃ img' g', drawCharsLoop C font scale x h mode cs i g img = Except.ok (img', g') := by
  induction cs generalizing i g img with
  | nil => exact ⟨img, g, rfl⟩
  | cons c rest ih =>
    obtain ⟨col, g1, hcol⟩ := get_color_ok C.hash g mode
    obtain ⟨y, g2, hy, -, -⟩ := rnd_between_ok C.hash g1
      (0 - i32_div (C.textSize scale font (String.mk [c])).2 8)
      (h + i32_div (C.textSize scale font (String.mk [c])).2 8 -
        (C.textSize scale font (String.mk [c])).2)
    obtain ⟨img', g', heq⟩ := ih (i + 1) g2 (C.drawText img col (5 + (i : Int) * x) y scale font (String.mk [c]))
    refine ⟨img', g', ?_⟩
    simp only [drawCharsLoop, hcol, hy, heq]

lemma draw_characters_shape {Font Img : Type} (C : Collab Font Img) (cap : Captcha Img)
    (g : Rnd) (font : Font) (h : cap.chars ≠ []) :
    ∃ img' g', Captcha.draw_characters C cap g font
      = Except.ok (Captcha.mk cap.mode cap.chars img', g') := by
  obtain ⟨img', g', heq⟩ := drawCharsLoop_ok C font
    (if 1 ≤ cap.chars.length ∧ cap.chars.length ≤ 4 then SCALE_LG
     else if 5 ≤ cap.chars.length ∧ cap.chars.length ≤ 6 then SCALE_MD else SCALE_SM)
    (i32_div (i32_of_u32 (u32_wrapping_sub (C.imWidth cap.image) 10)) (cap.chars.length : Int))
    (i32_of_u32 (C.imHeight cap.image)) cap.mode cap.chars 0 g cap.image
  refine ⟨img', g', ?_⟩
  unfold Captcha.draw_characters
  rw [if_neg (by simpa using h)]
  simp only [heq]

lemma draw_characters_nil {Font Img : Type} (C : Collab Font Img) (cap : Captcha Img)
    (g : Rnd) (font : Font) (h : cap.chars = []) :
    Captcha.draw_characters C cap g font = Except.error GenError.divZero := by
  unfold Captcha.draw_characters
  rw [if_pos (by simp [h])]

lemma draw_interference_line_shape {Font Img : Type} (C : Collab Font Img)
    (cap : Captcha Img) (g : Rnd) :
    ∃ img' g', Captcha.draw_interference_line C cap g
      = Except.ok (Captcha.mk cap.mode cap.chars img', g') := by
  obtain ⟨y1, g1, h1, -, -⟩ := rnd_between_ok C.hash g (-5) (i32_of_u32 (C.imHeight cap.image))
  obtain ⟨y2, g2, h2, -, -⟩ := rnd_between_ok C.hash g1 (-5) (i32_of_u32 (C.imHeight cap.image) + 5)
  obtain ⟨cx, g3, h3, -, -⟩ := rnd_between_ok C.hash g2
    (i32_div (i32_of_u32 (C.imWidth cap.image)) 10) (i32_div (i32_of_u32 (C.imWidth cap.image)) 2)
  obtain ⟨cy, g4, h4, -, -⟩ := rnd_between_ok C.hash g3 0 (i32_of_u32 (C.imHeight cap.image))
  obtain ⟨cx2, g5, h5, -, -⟩ := rnd_between_ok C.hash g4
    (i32_div (i32_of_u32 (C.imWidth cap.image)) 2 + i32_div (i32_of_u32 (C.imWidth cap.image)) 10)
    (i32_of_u32 (C.imWidth cap.image) - i32_div (i32_of_u32 (C.imWidth cap.image)) 10)
  obtain ⟨cy2, g6, h6, -, -⟩ := rnd_between_ok C.hash g5 0 (i32_of_u32 (C.imHeight cap.image))
  obtain ⟨col, g7, h7⟩ := get_color_ok C.hash g6 cap.mode
  refine ⟨C.drawBezier
      (C.drawBezier cap.image (5, y1) (i32_of_u32 (C.imWidth cap.image) - 5, y2)
        (cx, cy) (cx2, cy2) col)
      (5, y1 + 2) (i32_of_u32 (C.imWidth cap.image) - 5, y2 + 2)
      (cx, cy + 2) (cx2, cy2 + 2) col, g7, ?_⟩
  unfold Captcha.draw_interference_line
  simp only [h1, h2, h3, h4, h5, h6, h7]

lemma draw_interference_ellipse_shape {Font Img : Type} (C : Collab Font Img)
    (cap : Captcha Img) (g : Rnd) :
    ∃ img' g', Captcha.draw_interference_ellipse C cap g
      = Except.ok (Captcha.mk cap.mode cap.chars img', g') := by
  obtain ⟨w, g1, h1, -, -⟩ := rnd_between_ok C.hash g 5
    (i32_div (i32_of_u32 (C.imHeight cap.image)) 3)
  obtain ⟨x, g2, h2, -, -⟩ := rnd_between_ok C.hash g1 5 (i32_of_u32 (C.imWidth cap.image) - 5)
  obtain ⟨y, g3, h3, -, -⟩ := rnd_between_ok C.hash g2 5 (i32_of_u32 (C.imHeight cap.image) - 5)
  obtain ⟨col, g4, h4⟩ := get_color_ok C.hash g3 cap.mode
  refine ⟨C.drawEllipse (C.drawEllipse cap.image (x, y) (w * 2) w col)
      (x, y) (w * 2 + 2) (w + 2) col, g4, ?_⟩
  unfold Captcha.draw_interference_ellipse
  simp only [h1, h2, h3, h4]

lemma draw_interference_noise_shape {Font Img : Type} (C : Collab Font Img)
    (cap : Captcha Img) (g : Rnd) (complexity : Nat) :
    ∃ img' g', Captcha.draw_interference_noise C cap g complexity
      = Except.ok (Captcha.mk cap.mode cap.chars img', g') := by
  by_cases hc : complexity > 1
  · obtain ⟨s1, g1, h1⟩ := rnd_32_isOk C.hash g U32MAX (by decide)
    obtain ⟨s2, g2, h2⟩ := rnd_32_isOk C.hash g1 U32MAX (by decide)
    refine ⟨C.saltPepperNoise
        (C.gaussianNoise cap.image ((complexity - 1 : Nat) : Rat) ((4 * complexity : Nat) : Rat) s1)
        (0.002 * (complexity : Rat) - 0.002) s2, g2, ?_⟩
    unfold Captcha.draw_interference_noise
    rw [if_pos hc]
    simp only [h1, h2]
  · refine ⟨cap.image, g, ?_⟩
    unfold Captcha.draw_interference_noise
    rw [if_neg hc]

lemma renderAll_shape {Font Img : Type} (C : Collab Font Img) (font : Font)
    (complexity : Nat) (cap : Captcha Img) (g : Rnd) (h : cap.chars ≠ []) :
    ∃ cap', renderAll C font complexity cap g = Except.ok cap'
      ∧ cap'.mode = cap.mode ∧ cap'.chars = cap.chars := by
  obtain ⟨i1, g1, e1⟩ := draw_characters_shape C cap g font h
  obtain ⟨i2, g2, e2⟩ := draw_interference_line_shape C (Captcha.mk cap.mode cap.chars i1) g1
  obtain ⟨i3, g3, e3⟩ := draw_interference_line_shape C (Captcha.mk cap.mode cap.chars i2) g2
  obtain ⟨i4, g4, e4⟩ := draw_interference_ellipse_shape C (Captcha.mk cap.mode cap.chars i3) g3
  obtain ⟨i5, g5, e5⟩ := draw_interference_ellipse_shape C (Captcha.mk cap.mode cap.chars i4) g4
  obtain ⟨i6, g6, e6⟩ := draw_interference_ellipse_shape C (Captcha.mk cap.mode cap.chars i5) g5
  obtain ⟨i7, g7, e7⟩ := draw_interference_noise_shape C (Captcha.mk cap.mode cap.chars i6) g6
    complexity
  refine ⟨Captcha.mk cap.mode cap.chars i7, ?_, rfl, rfl⟩
  unfold renderAll
  simp only [e1, e2, e3, e4, e5, e6, e7]

lemma renderAll_nil {Font Img : Type} (C : Collab Font Img) (font : Font)
    (complexity : Nat) (cap : Captcha Img) (g : Rnd) (h : cap.chars = []) :
    renderAll C font complexity cap g = Except.error GenError.divZero := by
  unfold renderAll
  simp only [draw_characters_nil C cap g font h]

lemma generate_ok_or_div {Font Img : Type} (C : Collab Font Img) (b : CaptchaBuilder Font)
    (seed : List Nat) (text : Option String) :
    (∃ cap, CaptchaBuilder.generate C b seed text = Except.ok cap)
      ∨ CaptchaBuilder.generate C b seed text = Except.error GenError.divZero := by
  unfold CaptchaBuilder.generate
  cases text with
  | some t =>
    by_cases ht : (Captcha.new C t b.width b.height b.mode).chars = []
    · right
      exact renderAll_nil C b.fonts b.complexity _ _ ht
    · left
      obtain ⟨cap', heq, -, -⟩ := renderAll_shape C b.fonts b.complexity _ (Rnd.new C.hash seed) ht
      exact ⟨cap', heq⟩
  | none =>
    obtain ⟨cs, g', hs, -⟩ := sampleChars_ok C.hash b.length (Rnd.new C.hash seed)
    have hrand : Captcha.random C (Rnd.new C.hash seed) b.length b.width b.height b.mode
        = Except.ok (Captcha.new C (String.mk cs) b.width b.height b.mode, g') := by
      unfold Captcha.random
      simp only [hs]
    by_cases ht : (Captcha.new C (String.mk cs) b.width b.height b.mode).chars = []
    · right
      rw [hrand]
      exact renderAll_nil C b.fonts b.complexity _ _ ht
    · left
      obtain ⟨cap', heq, -, -⟩ := renderAll_shape C b.fonts b.complexity _ g' ht
      rw [hrand]
      exact ⟨cap', heq⟩

/-! ### Mode-tag congruence: every tag above 2 behaves like tag 2 -/

lemma get_color_high (H : List Nat → List Nat) (g : Rnd) (m : Nat) (hm : 2 < m) :
    get_color H g m = get_color H g 2 := by
  unfold get_color
  rw [if_neg (by omega : ¬ m = 0), if_neg (by omega : ¬ m = 1),
    if_neg (by omega : ¬ (2 : Nat) = 0), if_neg (by omega : ¬ (2 : Nat) = 1)]

lemma new_dark {Font Img : Type} (C : Collab Font Img) (t : String) (w h m : Nat)
    (hm : 1 < m) :
    Captcha.new C t w h m = Captcha.mk m t.toList (C.fromFn w h (fun _ _ => DARK)) := by
  unfold Captcha.new
  have hfun : (fun (_ : Nat) (_ : Nat) => if m > 1 then DARK else LIGHT)
      = (fun (_ : Nat) (_ : Nat) => DARK) := by
    funext a b
    exact if_pos hm
  rw [hfun]

lemma drawCharsLoop_high {Font Img : Type} (C : Collab Font Img) (font : Font)
    (scale : Scale) (x h : Int) (m : Nat) (hm : 2 < m) (cs : List Char) (i : Nat)
    (g : Rnd) (img : Img) :
    drawCharsLoop C font scale x h m cs i g img = drawCharsLoop C font scale x h 2 cs i g img := by
  induction cs generalizing i g img with
  | nil => rfl
  | cons c rest ih =>
    obtain ⟨col, g1, hcol⟩ := get_color_ok C.hash g 2
    obtain ⟨y, g2, hy, -, -⟩ := rnd_between_ok C.hash g1
      (0 - i32_div (C.textSize scale font (String.mk [c])).2 8)
      (h + i32_div (C.textSize scale font (String.mk [c])).2 8 -
        (C.textSize scale font (String.mk [c])).2)
    simp only [drawCharsLoop, get_color_high C.hash g m hm, hcol, hy, ih]

lemma draw_characters_high {Font Img : Type} (C : Collab Font Img) (cap : Captcha Img)
    (g : Rnd) (font : Font) (m : Nat) (hm : 2 < m) (hcap : cap.mode = 2) :
    Captcha.draw_characters C (reMode m cap) g font
      = (Captcha.draw_characters C cap g font).map (fun p => (reMode m p.1, p.2)) := by
  unfold Captcha.draw_characters reMode
  by_cases h : cap.chars.length = 0
  · rw [if_pos (by simpa using h), if_pos h]
    rfl
  · rw [if_neg (by simpa using h), if_neg h]
    simp only [drawCharsLoop_high C font _ _ _ m hm, ← hcap]
    cases drawCharsLoop C font
      (if 1 ≤ cap.chars.length ∧ cap.chars.length ≤ 4 then SCALE_LG
       else if 5 ≤ cap.chars.length ∧ cap.chars.length ≤ 6 then SCALE_MD else SCALE_SM)
      (i32_div (i32_of_u32 (u32_wrapping_sub (C.imWidth cap.image) 10)) (cap.chars.length : Int))
      (i32_of_u32 (C.imHeight cap.image)) cap.mode cap.chars 0 g cap.image with
    | error e => rfl
    | ok p => rfl

lemma draw_interference_line_high {Font Img : Type} (C : Collab Font Img)
    (cap : Captcha Img) (g : Rnd) (m : Nat) (hm : 2 < m) (hcap : cap.mode = 2) :
    Captcha.draw_interference_line C (reMode m cap) g
      = (Captcha.draw_interference_line C cap g).map (fun p => (reMode m p.1, p.2)) := by
  obtain ⟨y1, g1, h1, -, -⟩ := rnd_between_ok C.hash g (-5) (i32_of_u32 (C.imHeight cap.image))
  obtain ⟨y2, g2, h2, -, -⟩ := rnd_between_ok C.hash g1 (-5) (i32_of_u32 (C.imHeight cap.image) + 5)
  obtain ⟨cx, g3, h3, -, -⟩ := rnd_between_ok C.hash g2
    (i32_div (i32_of_u32 (C.imWidth cap.image)) 10) (i32_div (i32_of_u32 (C.imWidth cap.image)) 2)
  obtain ⟨cy, g4, h4, -, -⟩ := rnd_between_ok C.hash g3 0 (i32_of_u32 (C.imHeight cap.image))
  obtain ⟨cx2, g5, h5, -, -⟩ := rnd_between_ok C.hash g4
    (i32_div (i32_of_u32 (C.imWidth cap.image)) 2 + i32_div (i32_of_u32 (C.imWidth cap.image)) 10)
    (i32_of_u32 (C.imWidth cap.image) - i32_div (i32_of_u32 (C.imWidth cap.image)) 10)
  obtain ⟨cy2, g6, h6, -, -⟩ := rnd_between_ok C.hash g5 0 (i32_of_u32 (C.imHeight cap.image))
  obtain ⟨col, g7, h7⟩ := get_color_ok C.hash g6 2
  unfold Captcha.draw_interference_line reMode
  simp only [get_color_high C.hash g6 m hm, ← hcap, h1, h2, h3, h4, h5, h6]
  rw [hcap, h7]
  rfl

lemma draw_interference_ellipse_high {Font Img : Type} (C : Collab Font Img)
    (cap : Captcha Img) (g : Rnd) (m : Nat) (hm : 2 < m) (hcap : cap.mode = 2) :
    Captcha.draw_interference_ellipse C (reMode m cap) g
      = (Captcha.draw_interference_ellipse C cap g).map (fun p => (reMode m p.1, p.2)) := by
  obtain ⟨w, g1, h1, -, -⟩ := rnd_between_ok C.hash g 5
    (i32_div (i32_of_u32 (C.imHeight cap.image)) 3)
  obtain ⟨x, g2, h2, -, -⟩ := rnd_between_ok C.hash g1 5 (i32_of_u32 (C.imWidth cap.image) - 5)
  obtain ⟨y, g3, h3, -, -⟩ := rnd_between_ok C.hash g2 5 (i32_of_u32 (C.imHeight cap.image) - 5)
  obtain ⟨col, g4, h4⟩ := get_color_ok C.hash g3 2
  unfold Captcha.draw_interference_ellipse reMode
  simp only [get_color_high C.hash g3 m hm, ← hcap, h1, h2, h3]
  rw [hcap, h4]
  rfl

lemma draw_interference_noise_high {Font Img : Type} (C : Collab Font Img)
    (cap : Captcha Img) (g : Rnd) (complexity m : Nat) (_hm : 2 < m) :
    Captcha.draw_interference_noise C (reMode m cap) g complexity
      = (Captcha.draw_interference_noise C cap g complexity).map
          (fun p => (reMode m p.1, p.2)) := by
  unfold Captcha.draw_interference_noise reMode
  by_cases hc : complexity > 1
  · obtain ⟨s1, g1, hs1⟩ := rnd_32_isOk C.hash g U32MAX (by decide)
    obtain ⟨s2, g2, hs2⟩ := rnd_32_isOk C.hash g1 U32MAX (by decide)
    rw [if_pos hc, if_pos hc]
    simp only [hs1, hs2]
    rfl
  · rw [if_neg hc, if_neg hc]
    rfl

lemma draw_characters_pres {Font Img : Type} (C : Collab Font Img) (cap : Captcha Img)
    (g : Rnd) (font : Font) (cap' : Captcha Img) (g' : Rnd)
    (heq : Captcha.draw_characters C cap g font = Except.ok (cap', g')) :
    cap'.mode = cap.mode ∧ cap'.chars = cap.chars := by
  by_cases h : cap.chars = []
  · rw [draw_characters_nil C cap g font h] at heq
    cases heq
  · obtain ⟨img', g'', e⟩ := draw_characters_shape C cap g font h
    rw [e] at heq
    simp only [Except.ok.injEq, Prod.mk.injEq] at heq
    rw [← heq.1]
    exact ⟨rfl, rfl⟩

lemma draw_interference_line_pres {Font Img : Type} (C : Collab Font Img)
    (cap : Captcha Img) (g : Rnd) (cap' : Captcha Img) (g' : Rnd)
    (heq : Captcha.draw_interference_line C cap g = Except.ok (cap', g')) :
    cap'.mode = cap.mode ∧ cap'.chars = cap.chars := by
  obtain ⟨img', g'', e⟩ := draw_interference_line_shape C cap g
  rw [e] at heq
  simp only [Except.ok.injEq, Prod.mk.injEq] at heq
  rw [← heq.1]
  exact ⟨rfl, rfl⟩

lemma draw_interference_ellipse_pres {Font Img : Type} (C : Collab Font Img)
    (cap : Captcha Img) (g : Rnd) (cap' : Captcha Img) (g' : Rnd)
    (heq : Captcha.draw_interference_ellipse C cap g = Except.ok (cap', g')) :
    cap'.mode = cap.mode ∧ cap'.chars = cap.chars := by
  obtain ⟨img', g'', e⟩ := draw_interference_ellipse_shape C cap g
  rw [e] at heq
  simp only [Except.ok.injEq, Prod.mk.injEq] at heq
  rw [← heq.1]
  exact ⟨rfl, rfl⟩

lemma renderAll_high {Font Img : Type} (C : Collab Font Img) (font : Font)
    (complexity : Nat) (cap : Captcha Img) (g : Rnd) (m : Nat) (hm : 2 < m)
    (hcap : cap.mode = 2) :
    renderAll C font complexity (reMode m cap) g
      = (renderAll C font complexity cap g).map (reMode m) := by
  unfold renderAll
  rw [draw_characters_high C cap g font m hm hcap]
  cases e1 : Captcha.draw_characters C cap g font with
  | error e => rfl
  | ok p1 =>
    obtain ⟨cap1, g1⟩ := p1
    have hm1 : cap1.mode = 2 := (draw_characters_pres C cap g font cap1 g1 e1).1.trans hcap
    simp only [Except.map]
    rw [draw_interference_line_high C cap1 g1 m hm hm1]
    cases e2 : Captcha.draw_interference_line C cap1 g1 with
    | error e => rfl
    | ok p2 =>
      obtain ⟨cap2, g2⟩ := p2
      have hm2 : cap2.mode = 2 := (draw_interference_line_pres C cap1 g1 cap2 g2 e2).1.trans hm1
      simp only [Except.map]
      rw [draw_interference_line_high C cap2 g2 m hm hm2]
      cases e3 : Captcha.draw_interference_line C cap2 g2 with
      | error e => rfl
      | ok p3 =>
        obtain ⟨cap3, g3⟩ := p3
        have hm3 : cap3.mode = 2 := (draw_interference_line_pres C cap2 g2 cap3 g3 e3).1.trans hm2
        simp only [Except.map]
        rw [draw_interference_ellipse_high C cap3 g3 m hm hm3]
        cases e4 : Captcha.draw_interference_ellipse C cap3 g3 with
        | error e => rfl
        | ok p4 =>
          obtain ⟨cap4, g4⟩ := p4
          have hm4 : cap4.mode = 2 :=
            (draw_interference_ellipse_pres C cap3 g3 cap4 g4 e4).1.trans hm3
          simp only [Except.map]
          rw [draw_interference_ellipse_high C cap4 g4 m hm hm4]
          cases e5 : Captcha.draw_interference_ellipse C cap4 g4 with
          | error e => rfl
          | ok p5 =>
            obtain ⟨cap5, g5⟩ := p5
            have hm5 : cap5.mode = 2 :=
              (draw_interference_ellipse_pres C cap4 g4 cap5 g5 e5).1.trans hm4
            simp only [Except.map]
            rw [draw_interference_ellipse_high C cap5 g5 m hm hm5]
            cases e6 : Captcha.draw_interference_ellipse C cap5 g5 with
            | error e => rfl
            | ok p6 =>
              obtain ⟨cap6, g6⟩ := p6
              simp only [Except.map]
              rw [draw_interference_noise_high C cap6 g6 complexity m hm]
              cases e7 : Captcha.draw_interference_noise C cap6 g6 complexity with
              | error e => rfl
              | ok p7 => rfl

lemma random_pres {Font Img : Type} (C : Collab Font Img) (g : Rnd)
    (num width height mode : Nat) (cap : Captcha Img) (g' : Rnd)
    (heq : Captcha.random C g num width height mode = Except.ok (cap, g')) :
    cap.mode = mode := by
  obtain ⟨cs, g'', hs, -⟩ := sampleChars_ok C.hash num g
  unfold Captcha.random at heq
  rw [hs] at heq
  simp only [Except.ok.injEq, Prod.mk.injEq] at heq
  rw [← heq.1]
  rfl

lemma random_high {Font Img : Type} (C : Collab Font Img) (g : Rnd)
    (num width height m : Nat) (hm : 2 < m) :
    Captcha.random C g num width height m
      = (Captcha.random C g num width height 2).map (fun p => (reMode m p.1, p.2)) := by
  obtain ⟨cs, g', hs, -⟩ := sampleChars_ok C.hash num g
  unfold Captcha.random
  rw [hs]
  simp only [Except.map]
  rw [new_dark C (String.mk cs) width height m (by omega),
    new_dark C (String.mk cs) width height 2 (by omega)]
  rfl

lemma drawStates_cons_ok (H : List Nat → List Nat) (n : Nat) (ns : List Nat) (g : Rnd)
    (v : Nat) (g' : Rnd) (h : Rnd.rnd_32 H g n = Except.ok (v, g')) :
    drawStates H (n :: ns) g = drawStates H ns g' := by
  simp only [drawStates, h]

/-! ### Claim theorems -/

/-- C1: Determinism.  For every collaborator bundle, builder
configuration, seed and optional explicit text, two calls of generate
yield the same result, hence the same text, the same canvas and the same
encoded image at any fixed quality: generate is a pure function of its
inputs, and the embedding exhibits no hidden time- or
environment-dependent state. -/
theorem generate_deterministic {Font Img : Type} (C : Collab Font Img)
    (b : CaptchaBuilder Font) (seed : List Nat) (text : Option String) (q : Nat) :
    CaptchaBuilder.generate C b seed text = CaptchaBuilder.generate C b seed text
    ∧ Except.map (fun c => (Captcha.text c, c.image, Captcha.to_base64 C c q))
        (CaptchaBuilder.generate C b seed text)
      = Except.map (fun c => (Captcha.text c, c.image, Captcha.to_base64 C c q))
        (CaptchaBuilder.generate C b seed text) :=
  ⟨rfl, rfl⟩

/-- C2: Explicit-text override.  For every seed and every non-empty
string t, generate with explicit text t succeeds and the produced
captcha's text is exactly t: the chars are stored verbatim at
construction and no drawing stage alters them. -/
theorem generate_explicit_text {Font Img : Type} (C : Collab Font Img)
    (b : CaptchaBuilder Font) (seed : List Nat) (t : String) (ht : t ≠ ("")) :
    Except.map Captcha.text (CaptchaBuilder.generate C b seed (some t)) = Except.ok t := by
  have hdata : t.toList ≠ [] := by
    intro hd
    apply ht
    cases t with
    | mk d =>
      have hd' : d = [] := hd
      rw [hd']
  have hch : (Captcha.new C t b.width b.height b.mode).chars ≠ [] := hdata
  obtain ⟨cap', heq, -, hchars⟩ :=
    renderAll_shape C b.fonts b.complexity _ (Rnd.new C.hash seed) hch
  show Except.map Captcha.text
    (renderAll C b.fonts b.complexity (Captcha.new C t b.width b.height b.mode)
      (Rnd.new C.hash seed)) = Except.ok t
  rw [heq]
  show Except.ok (Captcha.text cap') = Except.ok t
  have htext : Captcha.text cap' = t := by
    show String.mk cap'.chars = t
    rw [hchars]
    show String.mk t.toList = t
    cases t
    rfl
  rw [htext]

/-- Witness for C2 at a concrete input. -/
theorem generate_explicit_text_witness :
    Except.map Captcha.text
      (CaptchaBuilder.generate unitCollab (CaptchaBuilder.new ()) [0, 32] (some ("AB")))
      = Except.ok ("AB") :=
  generate_explicit_text unitCollab (CaptchaBuilder.new ()) [0, 32] ("AB") (by decide)

/-- C3: SeedStream exhaustion.  From a freshly initialized stream
(state Hash(s), cursor 0), after 7 positive draws the state buffer is
still Hash(s) with the cursor at 28; after the 8th draw the buffer has
been replaced by its own hash, exactly once, giving Hash(Hash(s)) with
the cursor reset to 0; and the 9th draw returns the first 4 bytes of
Hash(Hash(s)) read as a little-endian u32 at offset 0 (its raw value),
reduced mod the bound. -/
theorem seedstream_exhaustion (H : List Nat → List Nat) (s : List Nat)
    (n1 n2 n3 n4 n5 n6 n7 n8 n9 : Nat) (h1 : n1 ≠ 0) (h2 : n2 ≠ 0) (h3 : n3 ≠ 0)
    (h4 : n4 ≠ 0) (h5 : n5 ≠ 0) (h6 : n6 ≠ 0) (h7 : n7 ≠ 0) (h8 : n8 ≠ 0)
    (h9 : n9 ≠ 0) :
    drawStates H [n1, n2, n3, n4, n5, n6, n7] (Rnd.new H s)
      = Except.ok (Rnd.mk 28 (next_seed H s))
    ∧ drawStates H [n1, n2, n3, n4, n5, n6, n7, n8] (Rnd.new H s)
      = Except.ok (Rnd.mk 0 (next_seed H (next_seed H s)))
    ∧ Rnd.rnd_32 H (Rnd.mk 0 (next_seed H (next_seed H s))) n9
      = Except.ok (readLe4 (next_seed H (next_seed H s)) 0 % n9,
          Rnd.mk 4 (next_seed H (next_seed H s))) := by
  have e1 : Rnd.rnd_32 H (Rnd.mk 0 (next_seed H s)) n1
      = Except.ok (readLe4 (next_seed H s) 0 % n1, Rnd.mk 4 (next_seed H s)) := by
    rw [rnd_32_eq H _ _ h1]
    rfl
  have e2 : Rnd.rnd_32 H (Rnd.mk 4 (next_seed H s)) n2
      = Except.ok (readLe4 (next_seed H s) 4 % n2, Rnd.mk 8 (next_seed H s)) := by
    rw [rnd_32_eq H _ _ h2]
    rfl
  have e3 : Rnd.rnd_32 H (Rnd.mk 8 (next_seed H s)) n3
      = Except.ok (readLe4 (next_seed H s) 8 % n3, Rnd.mk 12 (next_seed H s)) := by
    rw [rnd_32_eq H _ _ h3]
    rfl
  have e4 : Rnd.rnd_32 H (Rnd.mk 12 (next_seed H s)) n4
      = Except.ok (readLe4 (next_seed H s) 12 % n4, Rnd.mk 16 (next_seed H s)) := by
    rw [rnd_32_eq H _ _ h4]
    rfl
  have e5 : Rnd.rnd_32 H (Rnd.mk 16 (next_seed H s)) n5
      = Except.ok (readLe4 (next_seed H s) 16 % n5, Rnd.mk 20 (next_seed H s)) := by
    rw [rnd_32_eq H _ _ h5]
    rfl
  have e6 : Rnd.rnd_32 H (Rnd.mk 20 (next_seed H s)) n6
      = Except.ok (readLe4 (next_seed H s) 20 % n6, Rnd.mk 24 (next_seed H s)) := by
    rw [rnd_32_eq H _ _ h6]
    rfl
  have e7 : Rnd.rnd_32 H (Rnd.mk 24 (next_seed H s)) n7
      = Except.ok (readLe4 (next_seed H s) 24 % n7, Rnd.mk 28 (next_seed H s)) := by
    rw [rnd_32_eq H _ _ h7]
    rfl
  have e8 : Rnd.rnd_32 H (Rnd.mk 28 (next_seed H s)) n8
      = Except.ok (readLe4 (next_seed H s) 28 % n8,
          Rnd.mk 0 (next_seed H (next_seed H s))) := by
    rw [rnd_32_eq H _ _ h8]
    rfl
  refine ⟨?_, ?_, ?_⟩
  · rw [show Rnd.new H s = Rnd.mk 0 (next_seed H s) from rfl,
      drawStates_cons_ok H n1 _ _ _ _ e1, drawStates_cons_ok H n2 _ _ _ _ e2,
      drawStates_cons_ok H n3 _ _ _ _ e3, drawStates_cons_ok H n4 _ _ _ _ e4,
      drawStates_cons_ok H n5 _ _ _ _ e5, drawStates_cons_ok H n6 _ _ _ _ e6,
      drawStates_cons_ok H n7 _ _ _ _ e7]
    rfl
  · rw [show Rnd.new H s = Rnd.mk 0 (next_seed H s) from rfl,
      drawStates_cons_ok H n1 _ _ _ _ e1, drawStates_cons_ok H n2 _ _ _ _ e2,
      drawStates_cons_ok H n3 _ _ _ _ e3, drawStates_cons_ok H n4 _ _ _ _ e4,
      drawStates_cons_ok H n5 _ _ _ _ e5, drawStates_cons_ok H n6 _ _ _ _ e6,
      drawStates_cons_ok H n7 _ _ _ _ e7, drawStates_cons_ok H n8 _ _ _ _ e8]
    rfl
  · rw [rnd_32_eq H _ _ h9]
    rfl

/-- Witness for C3 at a concrete input. -/
theorem seedstream_exhaustion_witness :
    drawStates H0 [1, 1, 1, 1, 1, 1, 1, 1] (Rnd.new H0 [0, 32])
      = Except.ok (Rnd.mk 0 (next_seed H0 (next_seed H0 [0, 32])))
    ∧ Rnd.rnd_32 H0 (Rnd.mk 0 (next_seed H0 (next_seed H0 [0, 32]))) 1
      = Except.ok (readLe4 (next_seed H0 (next_seed H0 [0, 32])) 0 % 1,
          Rnd.mk 4 (next_seed H0 (next_seed H0 [0, 32]))) :=
  ⟨(seedstream_exhaustion H0 [0, 32] 1 1 1 1 1 1 1 1 1 (by decide) (by decide) (by decide)
      (by decide) (by decide) (by decide) (by decide) (by decide) (by decide)).2.1,
   (seedstream_exhaustion H0 [0, 32] 1 1 1 1 1 1 1 1 1 (by decide) (by decide) (by decide)
      (by decide) (by decide) (by decide) (by decide) (by decide) (by decide)).2.2⟩

/-- C4: Silent configuration and quality normalization.  Character count
0 yields 4; width ≤ 60 yields 140; height ≤ 20 yields 40; complexity is
clamped into [1,10]; encode quality above 80 encodes like 80 and below
10 like 30; in-range values (count > 0, width > 60, height > 20,
complexity in [1,10], quality in [10,80]) are kept unchanged.  All of
these are total functions: none surfaces a failure. -/
theorem config_quality_normalization {Font Img : Type} (C : Collab Font Img)
    (b : CaptchaBuilder Font) (cap : Captcha Img)
    (n w h cx w' h' cx' q1 q2 q3 : Nat)
    (hn : 0 < n) (hw : 60 < w) (hh : 20 < h) (hcx1 : 1 ≤ cx) (hcx2 : cx ≤ 10)
    (hw' : w' ≤ 60) (hh' : h' ≤ 20) (hq1 : 80 < q1) (hq2 : q2 < 10)
    (hq3a : 10 ≤ q3) (hq3b : q3 ≤ 80) :
    (CaptchaBuilder.set_length b 0).length = 4
    ∧ (CaptchaBuilder.set_width b w').width = 140
    ∧ (CaptchaBuilder.set_height b h').height = 40
    ∧ 1 ≤ (CaptchaBuilder.set_complexity b cx').complexity
    ∧ (CaptchaBuilder.set_complexity b cx').complexity ≤ 10
    ∧ (CaptchaBuilder.set_length b n).length = n
    ∧ (CaptchaBuilder.set_width b w).width = w
    ∧ (CaptchaBuilder.set_height b h).height = h
    ∧ (CaptchaBuilder.set_complexity b cx).complexity = cx
    ∧ Captcha.to_base64 C cap q1 = Captcha.to_base64 C cap 80
    ∧ Captcha.to_base64 C cap q2 = Captcha.to_base64 C cap 30
    ∧ Captcha.to_base64 C cap q3
        = String.append ("data:image/jpeg;base64,") (C.encode cap.image q3) := by
  refine ⟨rfl, ?_, ?_, ?_, ?_, ?_, ?_, ?_, ?_, ?_, ?_, ?_⟩
  · show (if w' > 60 then w' else 140) = 140
    rw [if_neg (by omega)]
  · show (if h' > 20 then h' else 40) = 40
    rw [if_neg (by omega)]
  · show 1 ≤ (if cx' > 10 then 10 else if cx' < 1 then 1 else cx')
    split_ifs <;> omega
  · show (if cx' > 10 then 10 else if cx' < 1 then 1 else cx') ≤ 10
    split_ifs <;> omega
  · show (if n > 0 then n else 4) = n
    rw [if_pos hn]
  · show (if w > 60 then w else 140) = w
    rw [if_pos hw]
  · show (if h > 20 then h else 40) = h
    rw [if_pos hh]
  · show (if cx > 10 then 10 else if cx < 1 then 1 else cx) = cx
    rw [if_neg (by omega), if_neg (by omega)]
  · show String.append ("data:image/jpeg;base64,")
        (C.encode cap.image (if q1 > 80 then 80 else if q1 < 10 then 30 else q1))
      = String.append ("data:image/jpeg;base64,")
        (C.encode cap.image (if 80 > 80 then 80 else if 80 < 10 then 30 else 80))
    rw [if_pos hq1, if_neg (by omega), if_neg (by omega)]
  · show String.append ("data:image/jpeg;base64,")
        (C.encode cap.image (if q2 > 80 then 80 else if q2 < 10 then 30 else q2))
      = String.append ("data:image/jpeg;base64,")
        (C.encode cap.image (if 30 > 80 then 80 else if 30 < 10 then 30 else 30))
    rw [if_neg (by omega), if_pos hq2, if_neg (by omega), if_neg (by omega)]
  · show String.append ("data:image/jpeg;base64,")
        (C.encode cap.image (if q3 > 80 then 80 else if q3 < 10 then 30 else q3))
      = String.append ("data:image/jpeg;base64,") (C.encode cap.image q3)
    rw [if_neg (by omega), if_neg (by omega)]

/-- Witness for C4 at a concrete input. -/
theorem config_quality_normalization_witness :
    (CaptchaBuilder.set_length (CaptchaBuilder.new ()) 0).length = 4
    ∧ (CaptchaBuilder.set_width (CaptchaBuilder.new ()) 10).width = 140
    ∧ Captcha.to_base64 unitCollab (Captcha.mk 0 [] ()) 200
        = Captcha.to_base64 unitCollab (Captcha.mk 0 [] ()) 80 :=
  ⟨(config_quality_normalization unitCollab (CaptchaBuilder.new ()) (Captcha.mk 0 [] ())
      4 100 30 5 10 5 99 200 0 50 (by decide) (by decide) (by decide) (by decide)
      (by decide) (by decide) (by decide) (by decide) (by decide) (by decide) (by decide)).1,
   (config_quality_normalization unitCollab (CaptchaBuilder.new ()) (Captcha.mk 0 [] ())
      4 100 30 5 10 5 99 200 0 50 (by decide) (by decide) (by decide) (by decide)
      (by decide) (by decide) (by decide) (by decide) (by decide) (by decide) (by decide)).2.1,
   (config_quality_normalization unitCollab (CaptchaBuilder.new ()) (Captcha.mk 0 [] ())
      4 100 30 5 10 5 99 200 0 50 (by decide) (by decide) (by decide) (by decide)
      (by decide) (by decide) (by decide) (by decide) (by decide) (by decide)
      (by decide)).2.2.2.2.2.2.2.2.2.1⟩

/-- C6: SeedStream.next precondition.  Drawing with bound 0 fails fast
with the modulo-by-zero error for every stream state, and this failure
is unreachable through the public generate surface: every internal call
site passes a positive bound (54 for the alphabet, 5 for each palette,
u32::MAX for the two noise seeds) and rnd_between only draws when
hi - lo > 0, so generate never returns the modZero error for any
configuration, seed or text. -/
theorem next_zero_fatal_and_unreachable {Font Img : Type} (C : Collab Font Img)
    (b : CaptchaBuilder Font) (seed : List Nat) (text : Option String)
    (H : List Nat → List Nat) (g : Rnd) :
    Rnd.rnd_32 H g 0 = Except.error GenError.modZero
    ∧ CaptchaBuilder.generate C b seed text ≠ Except.error GenError.modZero := by
  refine ⟨rfl, ?_⟩
  rcases generate_ok_or_div C b seed text with ⟨cap, h⟩ | h <;> rw [h] <;> intro hc <;>
    cases hc

/-- C9: Noise no-op at minimum complexity.  For every collaborator,
canvas and stream state, the noise stage at complexity 1 returns the
captcha and the stream unchanged: no pixel is touched and no draw is
consumed. -/
theorem noise_noop_at_min_complexity {Font Img : Type} (C : Collab Font Img)
    (cap : Captcha Img) (g : Rnd) :
    Captcha.draw_interference_noise C cap g 1 = Except.ok (cap, g) := rfl

/-- C10: Implicit edge case.  The slot width in draw_characters divides
(width - 10) by the character count with no guard, so generate with
explicit empty text reaches the division by zero for every
configuration and seed: the explicit-text path bypasses any length
validation. -/
theorem generate_empty_text_div_zero {Font Img : Type} (C : Collab Font Img)
    (b : CaptchaBuilder Font) (seed : List Nat) :
    CaptchaBuilder.generate C b seed (some ("")) = Except.error GenError.divZero := by
  show renderAll C b.fonts b.complexity
    (Captcha.new C ("") b.width b.height b.mode) (Rnd.new C.hash seed)
    = Except.error GenError.divZero
  exact renderAll_nil C b.fonts b.complexity _ _ rfl

/-- C5 counterexample: the mode tag is NOT normalized at validation
time.  Setting tag 7 on the builder stores 7 verbatim (not
ColorfulOnDark's tag 2), and the constructed captcha also carries the
raw tag 7: the fallback is re-interpreted at each draw site instead. -/
theorem mode_not_normalized_at_validation :
    (CaptchaBuilder.set_mode (CaptchaBuilder.new ()) 7).mode = 7
    ∧ (Captcha.new unitCollab ("A") 140 40 7).mode = 7
    ∧ (7 : Nat) ≠ 2 :=
  ⟨rfl, rfl, by decide⟩

/-- C5 amended: the out-of-range tag is stored verbatim and
re-interpreted at each draw site (background: tag > 1 is dark; palette:
the catch-all match arm), but the observable output is still the
fallback's: for every collaborator bundle, configuration, seed and
optional text, generate under a tag m > 2 yields the same text and the
same image as the same configuration with tag 2. -/
theorem mode_high_tag_equals_two {Font Img : Type} (C : Collab Font Img)
    (b : CaptchaBuilder Font) (seed : List Nat) (text : Option String) (m : Nat)
    (hm : 2 < m) :
    Except.map (fun c => (Captcha.text c, c.image))
        (CaptchaBuilder.generate C (CaptchaBuilder.set_mode b m) seed text)
      = Except.map (fun c => (Captcha.text c, c.image))
        (CaptchaBuilder.generate C (CaptchaBuilder.set_mode b 2) seed text) := by
  cases text with
  | some t =>
    show Except.map (fun c => (Captcha.text c, c.image))
        (renderAll C b.fonts b.complexity (Captcha.new C t b.width b.height m)
          (Rnd.new C.hash seed))
      = Except.map (fun c => (Captcha.text c, c.image))
        (renderAll C b.fonts b.complexity (Captcha.new C t b.width b.height 2)
          (Rnd.new C.hash seed))
    rw [new_dark C t b.width b.height m (by omega), new_dark C t b.width b.height 2 (by omega)]
    rw [show Captcha.mk m t.toList (C.fromFn b.width b.height (fun _ _ => DARK))
        = reMode m (Captcha.mk 2 t.toList (C.fromFn b.width b.height (fun _ _ => DARK)))
        from rfl]
    rw [renderAll_high C b.fonts b.complexity
      (Captcha.mk 2 t.toList (C.fromFn b.width b.height (fun _ _ => DARK)))
      (Rnd.new C.hash seed) m hm rfl]
    cases renderAll C b.fonts b.complexity
      (Captcha.mk 2 t.toList (C.fromFn b.width b.height (fun _ _ => DARK)))
      (Rnd.new C.hash seed) with
    | error e => rfl
    | ok c => rfl
  | none =>
    show Except.map (fun c => (Captcha.text c, c.image))
        (match Captcha.random C (Rnd.new C.hash seed) b.length b.width b.height m with
          | Except.error e => Except.error e
          | Except.ok (cap, g1) => renderAll C b.fonts b.complexity cap g1)
      = Except.map (fun c => (Captcha.text c, c.image))
        (match Captcha.random C (Rnd.new C.hash seed) b.length b.width b.height 2 with
          | Except.error e => Except.error e
          | Except.ok (cap, g1) => renderAll C b.fonts b.complexity cap g1)
    rw [random_high C (Rnd.new C.hash seed) b.length b.width b.height m hm]
    cases hr : Captcha.random C (Rnd.new C.hash seed) b.length b.width b.height 2 with
    | error e => rfl
    | ok p =>
      obtain ⟨cap, g1⟩ := p
      have hcm : cap.mode = 2 := random_pres C _ b.length b.width b.height 2 cap g1 hr
      show Except.map (fun c => (Captcha.text c, c.image))
          (renderAll C b.fonts b.complexity (reMode m cap) g1)
        = Except.map (fun c => (Captcha.text c, c.image))
          (renderAll C b.fonts b.complexity cap g1)
      rw [renderAll_high C b.fonts b.complexity cap g1 m hm hcm]
      cases renderAll C b.fonts b.complexity cap g1 with
      | error e => rfl
      | ok c => rfl

/-- Witness for the amended C5 at a concrete input. -/
theorem mode_high_tag_equals_two_witness :
    Except.map (fun c => (Captcha.text c, c.image))
        (CaptchaBuilder.generate unitCollab
          (CaptchaBuilder.set_mode (CaptchaBuilder.new ()) 7) [0, 32] (some ("A")))
      = Except.map (fun c => (Captcha.text c, c.image))
        (CaptchaBuilder.generate unitCollab
          (CaptchaBuilder.set_mode (CaptchaBuilder.new ()) 2) [0, 32] (some ("A"))) :=
  mode_high_tag_equals_two unitCollab (CaptchaBuilder.new ()) [0, 32] (some ("A")) 7
    (by decide)

lemma drawCharsLoop_trace_bound (H : List Nat → List Nat)
    (ts : Scale → Unit → String → Int × Int) (wd ht : Nat) (scale : Scale)
    (x h : Int) (mode : Nat) (cs : List Char) :
    ∀ (i : Nat) (g : Rnd) (img img' : List DrawOp) (g' : Rnd),
      drawCharsLoop (traceCollab H ts wd ht) () scale x h mode cs i g img
        = Except.ok (img', g') →
      (∀ col x0 y sc s, DrawOp.opText col x0 y sc s ∈ img →
        0 - i32_div ((ts sc () s).2) 8 ≤ y
        ∧ (0 - i32_div ((ts sc () s).2) 8
            < h + i32_div ((ts sc () s).2) 8 - (ts sc () s).2
          → y < h + i32_div ((ts sc () s).2) 8 - (ts sc () s).2)) →
      ∀ col x0 y sc s, DrawOp.opText col x0 y sc s ∈ img' →
        0 - i32_div ((ts sc () s).2) 8 ≤ y
        ∧ (0 - i32_div ((ts sc () s).2) 8
            < h + i32_div ((ts sc () s).2) 8 - (ts sc () s).2
          → y < h + i32_div ((ts sc () s).2) 8 - (ts sc () s).2) := by
  induction cs with
  | nil =>
    intro i g img img' g' hrun hinv col x0 y sc s hmem
    simp only [drawCharsLoop, Except.ok.injEq, Prod.mk.injEq] at hrun
    obtain ⟨rfl, rfl⟩ := hrun
    exact hinv col x0 y sc s hmem
  | cons c rest ih =>
    intro i g img img' g' hrun hinv
    obtain ⟨col0, g1, hcol⟩ := get_color_ok H g mode
    obtain ⟨y0, g2, hy, hylo, hyhi⟩ := rnd_between_ok H g1
      (0 - i32_div ((ts scale () (String.mk [c])).2) 8)
      (h + i32_div ((ts scale () (String.mk [c])).2) 8 - (ts scale () (String.mk [c])).2)
    simp only [drawCharsLoop, traceCollab, hcol, hy] at hrun
    refine ih (i + 1) g2
      (img ++ [DrawOp.opText col0 (5 + (i : Int) * x) y0 scale (String.mk [c])]) img' g'
      hrun ?_
    intro col x0 y sc s hmem
    rcases List.mem_append.mp hmem with hold | hnew
    · exact hinv col x0 y sc s hold
    · have heq := List.mem_singleton.mp hnew
      injection heq with e1 e2 e3 e4 e5
      subst e3
      subst e4
      subst e5
      exact ⟨hylo, fun hlt => hyhi hlt⟩

/-- C7 counterexample: with the default 140x40 canvas, a glyph height of
16 reported by the metrics collaborator and an all-zero stream, the text
renderer passes vertical origin -2 to the glyph rasterizer: the glyph's
top edge is above the canvas (y < 0), refuting the claim that the jitter
keeps glyphs fully inside the canvas. -/
theorem jitter_escapes_canvas :
    Except.map (fun p => p.1.image)
      (Captcha.draw_characters (traceCollab H0 ts0 140 40)
        (Captcha.new (traceCollab H0 ts0 140 40) ("A") 140 40 0) g0 ())
      = Except.ok [DrawOp.opText DARK 5 (-2) SCALE_LG ("A")]
    ∧ ((-2 : Int) < 0) :=
  ⟨rfl, by decide⟩

/-- C7 amended: the vertical origin y handed to the glyph rasterizer for
each character is drawn from the half-open interval
[-(ch/8), h + ch/8 - ch) when that interval is nonempty, and is pinned
to its lower end -(ch/8) otherwise (ch the glyph height reported by the
metrics collaborator, h the canvas height as i32): the glyph may
protrude up to ch/8 pixels above and below the canvas rather than
remaining fully inside it. -/
theorem vertical_jitter_actual_bounds (H : List Nat → List Nat)
    (ts : Scale → Unit → String → Int × Int) (wd ht mode : Nat) (t : String) (g : Rnd)
    (cap' : Captcha (List DrawOp)) (g' : Rnd) (col : Rgb) (x0 y : Int) (sc : Scale)
    (s : String)
    (hrun : Captcha.draw_characters (traceCollab H ts wd ht)
        (Captcha.new (traceCollab H ts wd ht) t wd ht mode) g ()
      = Except.ok (cap', g'))
    (hmem : DrawOp.opText col x0 y sc s ∈ cap'.image) :
    0 - i32_div ((ts sc () s).2) 8 ≤ y
    ∧ (0 - i32_div ((ts sc () s).2) 8
        < i32_of_u32 ht + i32_div ((ts sc () s).2) 8 - (ts sc () s).2
      → y < i32_of_u32 ht + i32_div ((ts sc () s).2) 8 - (ts sc () s).2) := by
  by_cases h0 : (Captcha.new (traceCollab H ts wd ht) t wd ht mode).chars = []
  · rw [draw_characters_nil (traceCollab H ts wd ht) _ g () h0] at hrun
    cases hrun
  · obtain ⟨img0, gg, eloop⟩ := drawCharsLoop_ok (traceCollab H ts wd ht) ()
      (if 1 ≤ (Captcha.new (traceCollab H ts wd ht) t wd ht mode).chars.length
          ∧ (Captcha.new (traceCollab H ts wd ht) t wd ht mode).chars.length ≤ 4
        then SCALE_LG
        else if 5 ≤ (Captcha.new (traceCollab H ts wd ht) t wd ht mode).chars.length
            ∧ (Captcha.new (traceCollab H ts wd ht) t wd ht mode).chars.length ≤ 6
          then SCALE_MD else SCALE_SM)
      (i32_div (i32_of_u32 (u32_wrapping_sub
          ((traceCollab H ts wd ht).imWidth
            (Captcha.new (traceCollab H ts wd ht) t wd ht mode).image) 10))
        ((Captcha.new (traceCollab H ts wd ht) t wd ht mode).chars.length : Int))
      (i32_of_u32 ((traceCollab H ts wd ht).imHeight
        (Captcha.new (traceCollab H ts wd ht) t wd ht mode).image))
      (Captcha.new (traceCollab H ts wd ht) t wd ht mode).mode
      (Captcha.new (traceCollab H ts wd ht) t wd ht mode).chars 0 g
      (Captcha.new (traceCollab H ts wd ht) t wd ht mode).image
    have hforward : Captcha.draw_characters (traceCollab H ts wd ht)
        (Captcha.new (traceCollab H ts wd ht) t wd ht mode) g ()
        = Except.ok (Captcha.mk (Captcha.new (traceCollab H ts wd ht) t wd ht mode).mode
            (Captcha.new (traceCollab H ts wd ht) t wd ht mode).chars img0, gg) := by
      unfold Captcha.draw_characters
      rw [if_neg (by simpa using h0)]
      simp only [eloop]
    rw [hforward] at hrun
    simp only [Except.ok.injEq, Prod.mk.injEq] at hrun
    obtain ⟨hcap, -⟩ := hrun
    have hmem0 : DrawOp.opText col x0 y sc s ∈ img0 := by
      rw [← hcap] at hmem
      exact hmem
    exact drawCharsLoop_trace_bound H ts wd ht _ _ _ _ _ 0 g _ img0 gg eloop
      (fun col' x0' y' sc' s' hmem' => absurd hmem' (List.not_mem_nil _))
      col x0 y sc s hmem0

/-- Witness for the amended C7 at a concrete input (the same run as the
counterexample: the drawn origin -2 respects the actual bounds -2 and
26). -/
theorem vertical_jitter_actual_bounds_witness :
    0 - i32_div ((ts0 SCALE_LG () ("A")).2) 8 ≤ (-2 : Int)
    ∧ (0 - i32_div ((ts0 SCALE_LG () ("A")).2) 8
        < i32_of_u32 40 + i32_div ((ts0 SCALE_LG () ("A")).2) 8 - (ts0 SCALE_LG () ("A")).2
      → (-2 : Int) < i32_of_u32 40 + i32_div ((ts0 SCALE_LG () ("A")).2) 8
          - (ts0 SCALE_LG () ("A")).2) :=
  vertical_jitter_actual_bounds H0 ts0 140 40 0 ("A") g0
    (Captcha.mk 0 (['A']) ([DrawOp.opText DARK 5 (-2) SCALE_LG ("A")]))
    (Rnd.mk 4 (List.replicate 32 0)) DARK 5 (-2) SCALE_LG ("A") rfl
    (List.Mem.head [])

/-- C8 counterexample: on a concrete run of the interference-line
drawing (140x40 canvas, mode 0, all-zero stream), the two recorded
Bezier calls share the same x coordinates (5, 135, 14, 84) and only the
y coordinates are shifted by 2; the second curve's first x coordinate 5
is not the first curve's x offset by 2, refuting the claim that the
offset is applied in both axes. -/
theorem second_curve_not_offset_in_x :
    Except.map (fun p => p.1.image)
      (Captcha.draw_interference_line (traceCollab H0 ts0 140 40)
        (Captcha.new (traceCollab H0 ts0 140 40) ("A") 140 40 0) g0)
      = Except.ok
        [DrawOp.opBezier (5, -5) (135, -5) (14, 0) (84, 0) DARK,
         DrawOp.opBezier (5, -3) (135, -3) (14, 2) (84, 2) DARK]
    ∧ ((5 : Int) ≠ 5 + 2) :=
  ⟨rfl, by decide⟩

/-- C8 amended: each drawLine call draws a cubic Bezier curve through
the sampled endpoint and control coordinates, then draws a second curve
with the same sampled color whose four y coordinates are offset by 2
pixels while the x coordinates are reused unchanged (the offset is in
the y axis only, not both axes). -/
theorem second_curve_offset_y_only (H : List Nat → List Nat)
    (ts : Scale → Unit → String → Int × Int) (wd ht mode : Nat)
    (cs : List Char) (img : List DrawOp) (g : Rnd) :
    ∃ y1 y2 cx cy cx2 cy2 col g',
      Captcha.draw_interference_line (traceCollab H ts wd ht)
        (Captcha.mk mode cs img) g
      = Except.ok (Captcha.mk mode cs
          (img ++ [DrawOp.opBezier (5, y1) (i32_of_u32 wd - 5, y2) (cx, cy) (cx2, cy2) col,
                   DrawOp.opBezier (5, y1 + 2) (i32_of_u32 wd - 5, y2 + 2) (cx, cy + 2)
                     (cx2, cy2 + 2) col]), g') := by
  obtain ⟨y1, g1, h1, -, -⟩ := rnd_between_ok H g (-5) (i32_of_u32 ht)
  obtain ⟨y2, g2, h2, -, -⟩ := rnd_between_ok H g1 (-5) (i32_of_u32 ht + 5)
  obtain ⟨cx, g3, h3, -, -⟩ := rnd_between_ok H g2 (i32_div (i32_of_u32 wd) 10)
    (i32_div (i32_of_u32 wd) 2)
  obtain ⟨cy, g4, h4, -, -⟩ := rnd_between_ok H g3 0 (i32_of_u32 ht)
  obtain ⟨cx2, g5, h5, -, -⟩ := rnd_between_ok H g4
    (i32_div (i32_of_u32 wd) 2 + i32_div (i32_of_u32 wd) 10)
    (i32_of_u32 wd - i32_div (i32_of_u32 wd) 10)
  obtain ⟨cy2, g6, h6, -, -⟩ := rnd_between_ok H g5 0 (i32_of_u32 ht)
  obtain ⟨col, g7, h7⟩ := get_color_ok H g6 mode
  refine ⟨y1, y2, cx, cy, cx2, cy2, col, g7, ?_⟩
  unfold Captcha.draw_interference_line
  simp only [traceCollab, h1, h2, h3, h4, h5, h6, h7, List.append_assoc]
  rfl

end ICCaptcha
